import Mathlib

/-!
Shallow embedding of the command/state synchronization and history-query
core of the enviromoon-node server (src/api/index.js).

Modelling conventions:
* JS timestamps (`Date` values, milliseconds since epoch) are `Int`.
* JS numbers carried through unchanged by the handlers are modelled as `Int`;
  the `parseFloat`/`parseInt` coercions applied to already-numeric payload
  fields are modelled as the identity on that value domain (no claim depends
  on float arithmetic or coercion of non-numeric payloads).
* Absent JS values (`undefined`/`null`) are `Option.none`.
* The MongoDB store is modelled as in-memory lists, one per collection;
  `insert` appends, `find().sort({timestamp:-1})` is a sort descending by
  timestamp, `.limit(n)` caps the result (n = 0 means no cap, a negative n
  caps at its absolute value, per MongoDB cursor semantics).
* A store write that fails at the persistence layer is modelled by the
  `storeOk : Bool` parameter: when false, `save()` throws and the handler
  answers with a 500 response, having already performed any in-process
  mutations that precede the `await save()` in the source.
-/

namespace Enviromoon

/-- In-process cache of the latest reading (`latestSensorData` in the source:
the three coerced fields, no timestamp). -/
structure CachedReading where
  temperature : Int
  humidity : Int
  ldr : Int
deriving DecidableEq, Repr

/-- A persisted sensor reading (the `SensorData` mongoose model: the three
fields plus the server-assigned `timestamp`). -/
structure SensorRecord where
  temperature : Int
  humidity : Int
  ldr : Int
  timestamp : Int
deriving DecidableEq, Repr

/-- A persisted alert (the `Alert` mongoose model). -/
structure AlertRecord where
  message : String
  timestamp : Int
deriving DecidableEq, Repr

/-- A device status payload as pushed by the device (fields of the
`deviceStatusSchema`; all optional, mongoose does not require them). -/
structure StatusPayload where
  uptime : Option Int
  totalReadings : Option Int
  samplingInterval : Option Int
  ledState : Option Bool
  temperatureOffset : Option Int
  humidityOffset : Option Int
  lightThreshold : Option Int
  ipAddress : Option String
  rssi : Option Int
deriving DecidableEq, Repr

/-- A persisted device status (payload plus server-assigned timestamp). -/
structure StatusRecord where
  payload : StatusPayload
  timestamp : Int
deriving DecidableEq, Repr

/-- The module-level `connectionStatus` object of the source. -/
structure ConnTrack where
  lastDataReceived : Option Int
  lastStatusUpdate : Option Int
  lastCommandPoll : Option Int
  totalDataReceived : Nat
  totalCommandsSent : Nat
  isConnected : Bool
deriving DecidableEq, Repr

/-- The MongoDB collections used by the core abilities, as in-memory lists in
insertion order. -/
structure Store where
  sensorData : List SensorRecord
  deviceStatus : List StatusRecord
  alerts : List AlertRecord
deriving DecidableEq, Repr

/-- The whole mutable server state: module-level variables plus the store. -/
structure ServerState where
  commandQueue : Option String
  latestSensorData : Option CachedReading
  latestDeviceStatus : Option StatusPayload
  connectionStatus : ConnTrack
  store : Store
deriving DecidableEq, Repr

/-- Incoming reading payload (`req.body` of POST /api/sensors/data); each
field may be absent. -/
structure SensorPayload where
  temperature : Option Int
  humidity : Option Int
  ldr : Option Int
deriving DecidableEq, Repr

/-- Outcome of an ingestion handler: 200 success, 400 missing-field
rejection, or 500 when the store write throws. -/
inductive IngestResult
  | ok
  | validationError
  | storeError
deriving DecidableEq, Repr

/-- Outcome of POST /api/device/command: queued, or 400 for a falsy command. -/
inductive CommandResp
  | queued
  | missingCommand
deriving DecidableEq, Repr

/-- Descending-timestamp order on sensor records (`.sort({timestamp: -1})`). -/
def descByTimestamp (a b : SensorRecord) : Prop := b.timestamp ≤ a.timestamp

instance : DecidableRel descByTimestamp :=
  fun a b => inferInstanceAs (Decidable (b.timestamp ≤ a.timestamp))

instance : IsTotal SensorRecord descByTimestamp :=
  ⟨fun a b => le_total b.timestamp a.timestamp⟩

instance : IsTrans SensorRecord descByTimestamp :=
  ⟨fun _ _ _ h1 h2 => le_trans h2 h1⟩

/-- Descending-timestamp order on status records. -/
def descStatus (a b : StatusRecord) : Prop := b.timestamp ≤ a.timestamp

instance : DecidableRel descStatus :=
  fun a b => inferInstanceAs (Decidable (b.timestamp ≤ a.timestamp))

/-- Descending-timestamp order on alert records. -/
def descAlert (a b : AlertRecord) : Prop := b.timestamp ≤ a.timestamp

instance : DecidableRel descAlert :=
  fun a b => inferInstanceAs (Decidable (b.timestamp ≤ a.timestamp))

/-- Numeric value of a list of decimal digit characters. -/
def digitsVal (ds : List Char) : Nat :=
  ds.foldl (fun n c => 10 * n + (c.toNat - 48)) 0

/-- The regex `^(\d+)([mhd])$` of the history handler: one or more decimal
digits followed by a single unit character. Returns the captured integer
value and unit on a match. -/
def matchCustom (p : String) : Option (Nat × Char) :=
  match p.data.reverse with
  | [] => none
  | u :: revDigits =>
    if (u == 'm' || u == 'h' || u == 'd') && !revDigits.isEmpty
        && revDigits.all Char.isDigit then
      some (digitsVal revDigits.reverse, u)
    else none

/-- JS `parseInt` restricted to the decimal forms the handlers receive: an
optional leading minus sign then a longest digit prefix; no digits parses to
NaN, modelled as `none`. -/
def parseIntJS (s : String) : Option Int :=
  match s.data with
  | '-' :: rest =>
    let ds := rest.takeWhile Char.isDigit
    if ds.isEmpty then none else some (-(digitsVal ds : Int))
  | cs =>
    let ds := cs.takeWhile Char.isDigit
    if ds.isEmpty then none else some ((digitsVal ds : Int))

/-- Effective limit of a `.limit(limit ? parseInt(limit) : dflt)` call:
the default applies exactly when the query string is absent or empty (the
only falsy strings); any other string is parsed, `none` standing for NaN. -/
def effLimit (limit : Option String) (dflt : Int) : Option Int :=
  match limit with
  | none => some dflt
  | some s => if s = "" then some dflt else parseIntJS s

/-- MongoDB `.limit` cursor semantics: a positive limit caps the result, 0
means no limit, a negative limit caps at its absolute value. A NaN limit
(`none`) is modelled as no cap; no claim exercises it. -/
def applyLimit (l : List SensorRecord) (lim : Option Int) : List SensorRecord :=
  match lim with
  | none => l
  | some v => if 0 < v then l.take v.toNat else if v < 0 then l.take (-v).toNat else l

/-- Records of `l` with timestamp in the inclusive window `[s, e]` (the
`$gte`/`$lte` query of the history and range handlers). -/
def findInWindow (l : List SensorRecord) (s e : Int) : List SensorRecord :=
  l.filter (fun r => s ≤ r.timestamp && r.timestamp ≤ e)

/-- The `find(window).sort({timestamp:-1}).limit(lim)` pipeline shared by the
history and range handlers. -/
def queryRange (l : List SensorRecord) (s e : Int) (lim : Option Int) : List SensorRecord :=
  applyLimit ((findInWindow l s e).insertionSort descByTimestamp) lim

/-- The 60-second connectivity threshold (`CONNECTION_TIMEOUT`), in ms. -/
def CONNECTION_TIMEOUT : Int := 60000

/-- The `lastDataReceived || lastCommandPoll` expression of the connection
handler: JS `||` yields the first present value (a Date object is always
truthy). -/
def lastComm (cs : ConnTrack) : Option Int :=
  cs.lastDataReceived <|> cs.lastCommandPoll

/-- The `isCurrentlyConnected` computation of GET /api/device/connection. -/
def isCurrentlyConnected (cs : ConnTrack) (now : Int) : Bool :=
  match lastComm cs with
  | none => false
  | some lastCommAt => decide (now - lastCommAt < CONNECTION_TIMEOUT)

/-- The `getTimeAgo` renderer of the connection handler. -/
def getTimeAgo (now : Int) (date : Option Int) : String :=
  match date with
  | none => "Never"
  | some d =>
    let seconds := Int.fdiv (now - d) 1000
    if seconds < 60 then toString seconds ++ " seconds ago"
    else
      let minutes := Int.fdiv seconds 60
      if minutes < 60 then toString minutes ++ " minutes ago"
      else toString (Int.fdiv minutes 60) ++ " hours ago"

/-- The JSON body of GET /api/device/connection. -/
structure ConnectionSummary where
  isConnected : Bool
  lastDataReceived : Option (Int × String)
  lastStatusUpdate : Option (Int × String)
  lastCommandPoll : Option (Int × String)
  totalDataReceived : Nat
  totalCommandsSent : Nat
  latestSensorData : Option CachedReading
deriving DecidableEq, Repr

/-- GET /api/device/connection: read-only snapshot of connectivity. -/
def getDeviceConnection (st : ServerState) (now : Int) : ConnectionSummary :=
  let cs := st.connectionStatus
  { isConnected := isCurrentlyConnected cs now
    lastDataReceived := cs.lastDataReceived.map (fun t => (t, getTimeAgo now (some t)))
    lastStatusUpdate := cs.lastStatusUpdate.map (fun t => (t, getTimeAgo now (some t)))
    lastCommandPoll := cs.lastCommandPoll.map (fun t => (t, getTimeAgo now (some t)))
    totalDataReceived := cs.totalDataReceived
    totalCommandsSent := cs.totalCommandsSent
    latestSensorData := st.latestSensorData }

/-- POST /api/device/command: 400 on a falsy command (absent or empty
string), otherwise unconditionally overwrite the single command slot. -/
def postDeviceCommand (st : ServerState) (command : Option String) :
    ServerState × CommandResp :=
  match command with
  | none => (st, .missingCommand)
  | some c =>
    if c = "" then (st, .missingCommand)
    else ({ st with commandQueue := some c }, .queued)

/-- GET /api/device/commands: stamp the poll time, then return and clear the
pending command, incrementing `totalCommandsSent` only when one was present. -/
def getDeviceCommands (st : ServerState) (now : Int) : ServerState × Option String :=
  let cs := { st.connectionStatus with lastCommandPoll := some now, isConnected := true }
  match st.commandQueue with
  | some command =>
    ({ st with
        commandQueue := none
        connectionStatus := { cs with totalCommandsSent := cs.totalCommandsSent + 1 } },
     some command)
  | none => ({ st with connectionStatus := cs }, none)

/-- POST /api/sensors/data: reject when any of the three fields is absent;
otherwise update the cache and connection tracking, then attempt the store
insert (`timestamp` is the schema default, the server time `now`). -/
def postSensorsData (st : ServerState) (p : SensorPayload) (now : Int) (storeOk : Bool) :
    ServerState × IngestResult :=
  match p.temperature, p.humidity, p.ldr with
  | some t, some h, some l =>
    let reading : CachedReading := { temperature := t, humidity := h, ldr := l }
    let st1 := { st with
      latestSensorData := some reading
      connectionStatus := { st.connectionStatus with
        lastDataReceived := some now
        totalDataReceived := st.connectionStatus.totalDataReceived + 1
        isConnected := true } }
    if storeOk then
      ({ st1 with store := { st1.store with sensorData := st1.store.sensorData ++
          [{ temperature := t, humidity := h, ldr := l, timestamp := now }] } }, .ok)
    else (st1, .storeError)
  | _, _, _ => (st, .validationError)

/-- POST /api/device/status-update: cache the payload and stamp
`lastStatusUpdate`, then attempt the store insert. -/
def postDeviceStatusUpdate (st : ServerState) (payload : StatusPayload) (now : Int)
    (storeOk : Bool) : ServerState × IngestResult :=
  let st1 := { st with
    latestDeviceStatus := some payload
    connectionStatus := { st.connectionStatus with
      lastStatusUpdate := some now
      isConnected := true } }
  if storeOk then
    ({ st1 with store := { st1.store with deviceStatus := st1.store.deviceStatus ++
        [{ payload := payload, timestamp := now }] } }, .ok)
  else (st1, .storeError)

/-- POST /api/device/alerts: reject a falsy message, otherwise append. -/
def postDeviceAlerts (st : ServerState) (message : Option String) (now : Int)
    (storeOk : Bool) : ServerState × IngestResult :=
  match message with
  | none => (st, .validationError)
  | some m =>
    if m = "" then (st, .validationError)
    else if storeOk then
      ({ st with store := { st.store with alerts := st.store.alerts ++
          [{ message := m, timestamp := now }] } }, .ok)
    else (st, .storeError)

/-- Error cases of the period resolution in GET /api/sensors/history:
`required` is the final "Period parameter is required" 400, `invalidPeriod`
the "Invalid period" 400 when the custom regex does not match, and
`invalidFormat` the (dead) "Invalid period format" branch inside a match. -/
inductive PeriodError
  | required
  | invalidPeriod
  | invalidFormat
deriving DecidableEq, Repr

/-- The custom-match branch of the history handler: start time from a
captured value and unit (the inner if/else on `unit` of the source; the
final error arm is unreachable because the regex only captures m, h, d). -/
def customStartTime (vu : Nat × Char) (now : Int) : Except PeriodError Int :=
  if vu.2 == 'm' then .ok (now - (vu.1 : Int) * 60000)
  else if vu.2 == 'h' then .ok (now - (vu.1 : Int) * 60 * 60000)
  else if vu.2 == 'd' then .ok (now - (vu.1 : Int) * 24 * 60 * 60000)
  else .error .invalidFormat

/-- The `startTime` computation of GET /api/sensors/history for a present
period string: the chain of named shorthands and verbose aliases, then the
custom `^(\d+)([mhd])$` branch (an empty string is falsy in JS and falls
through to the "period required" rejection). -/
def resolvePeriodStr (p : String) (now : Int) : Except PeriodError Int :=
  if p == "1m" || p == "1minute" then .ok (now - 60000)
  else if p == "5m" || p == "5minutes" then .ok (now - 5 * 60000)
  else if p == "15m" || p == "15minutes" then .ok (now - 15 * 60000)
  else if p == "30m" || p == "30minutes" then .ok (now - 30 * 60000)
  else if p == "1h" || p == "1hour" then .ok (now - 60 * 60000)
  else if p == "6h" || p == "6hours" then .ok (now - 6 * 60 * 60000)
  else if p == "1d" || p == "1day" then .ok (now - 24 * 60 * 60000)
  else if p == "1w" || p == "1week" then .ok (now - 7 * 24 * 60 * 60000)
  else if p == "" then .error .required
  else
    match matchCustom p with
    | some vu => customStartTime vu now
    | none => .error .invalidPeriod

/-- The full `startTime` computation: an absent period is rejected with the
"period required" error, otherwise the string chain decides. -/
def resolveStartTime (period : Option String) (now : Int) : Except PeriodError Int :=
  match period with
  | none => .error .required
  | some p => resolvePeriodStr p now

/-- The JSON body of a successful GET /api/sensors/history. -/
structure HistoryResp where
  startTime : Int
  endTime : Int
  count : Nat
  data : List SensorRecord
deriving DecidableEq, Repr

/-- GET /api/sensors/history: resolve the period, then run the windowed,
descending, limited query (default limit 10000). Read-only. -/
def getSensorsHistory (st : ServerState) (period limit : Option String) (now : Int) :
    Except PeriodError HistoryResp :=
  match resolveStartTime period now with
  | .error e => .error e
  | .ok startTime =>
    let data := queryRange st.store.sensorData startTime now (effLimit limit 10000)
    .ok { startTime := startTime, endTime := now, count := data.length, data := data }

/-- GET /api/sensors/range: window filter only when both bounds are present,
default limit 1000. Read-only. -/
def getSensorsRange (st : ServerState) (s e : Option Int) (limit : Option String) :
    List SensorRecord :=
  match s, e with
  | some a, some b => queryRange st.store.sensorData a b (effLimit limit 1000)
  | _, _ =>
    applyLimit (st.store.sensorData.insertionSort descByTimestamp) (effLimit limit 1000)

/-- GET /api/sensors: ten most recent readings. Read-only. -/
def getSensors (st : ServerState) : List SensorRecord :=
  (st.store.sensorData.insertionSort descByTimestamp).take 10

/-- The `findOne().sort({timestamp:-1})` fetch on the readings collection. -/
def findLatestReading (l : List SensorRecord) : Option SensorRecord :=
  (l.insertionSort descByTimestamp).head?

/-- The `findOne().sort({timestamp:-1})` fetch on the statuses collection. -/
def findLatestStatus (l : List StatusRecord) : Option StatusRecord :=
  (l.insertionSort descStatus).head?

/-- The JSON body of GET /api/sensors/latest. -/
inductive LatestResp
  | fromDb (r : SensorRecord)
  | fromCache (c : CachedReading)
  | noData
deriving DecidableEq, Repr

/-- GET /api/sensors/latest: the cache decides only whether data exists; the
value answered is re-fetched from the store when possible. Read-only. -/
def getSensorsLatest (st : ServerState) : LatestResp :=
  match st.latestSensorData with
  | some cached =>
    match findLatestReading st.store.sensorData with
    | some r => .fromDb r
    | none => .fromCache cached
  | none =>
    match findLatestReading st.store.sensorData with
    | some r => .fromDb r
    | none => .noData

/-- The JSON body of GET /api/device/status. -/
inductive StatusResp
  | cached (p : StatusPayload)
  | fromDb (r : StatusRecord)
  | noStatus
deriving DecidableEq, Repr

/-- GET /api/device/status: cached payload if present, else store fallback.
Read-only. -/
def getDeviceStatus (st : ServerState) : StatusResp :=
  match st.latestDeviceStatus with
  | some p => .cached p
  | none =>
    match findLatestStatus st.store.deviceStatus with
    | some r => .fromDb r
    | none => .noStatus

/-- GET /api/alerts: most recent alerts, default limit 50. Read-only. -/
def getAlerts (st : ServerState) (limit : Option String) : List AlertRecord :=
  let sorted := st.store.alerts.insertionSort descAlert
  match effLimit limit 50 with
  | none => sorted
  | some v => if 0 < v then sorted.take v.toNat
              else if v < 0 then sorted.take (-v).toNat else sorted

/-- POST /api/sensors/read: load the fixed READ command. -/
def postSensorsRead (st : ServerState) : ServerState :=
  { st with commandQueue := some "READ" }

/-- POST /api/settings/sampling-interval: reject a falsy or sub-1 interval,
otherwise load an INTERVAL command with the value in ms. -/
def postSettingsSamplingInterval (st : ServerState) (interval : Option Int) :
    ServerState × Bool :=
  match interval with
  | none => (st, false)
  | some v =>
    if v = 0 || v < 1 then (st, false)
    else ({ st with commandQueue := some ("INTERVAL:" ++ toString (v * 1000)) }, true)

/-- POST /api/sensors/temp/enable. -/
def postSensorsTempEnable (st : ServerState) : ServerState :=
  { st with commandQueue := some "TEMP:ON" }

/-- POST /api/sensors/temp/disable. -/
def postSensorsTempDisable (st : ServerState) : ServerState :=
  { st with commandQueue := some "TEMP:OFF" }

/-- POST /api/sensors/light/enable. -/
def postSensorsLightEnable (st : ServerState) : ServerState :=
  { st with commandQueue := some "LIGHT:ON" }

/-- POST /api/sensors/light/disable. -/
def postSensorsLightDisable (st : ServerState) : ServerState :=
  { st with commandQueue := some "LIGHT:OFF" }

/-- POST /api/device/status-request. -/
def postDeviceStatusRequest (st : ServerState) : ServerState :=
  { st with commandQueue := some "STATUS" }

/-- One invocation of any route handler of the core, with its inputs. -/
inductive Op
  | sensorsData (p : SensorPayload) (now : Int) (storeOk : Bool)
  | deviceCommands (now : Int)
  | statusUpdate (p : StatusPayload) (now : Int) (storeOk : Bool)
  | deviceAlerts (message : Option String) (now : Int) (storeOk : Bool)
  | sensors
  | sensorsLatest
  | sensorsRange (s e : Option Int) (limit : Option String)
  | sensorsHistory (period limit : Option String) (now : Int)
  | deviceStatus
  | deviceConnection (now : Int)
  | alerts (limit : Option String)
  | deviceCommand (command : Option String)
  | sensorsRead
  | samplingInterval (interval : Option Int)
  | tempEnable
  | tempDisable
  | lightEnable
  | lightDisable
  | statusRequest
deriving DecidableEq, Repr

/-- State transition of one handler invocation (read-only handlers leave the
state unchanged; their responses are computed by the definitions above). -/
def applyOp (st : ServerState) : Op → ServerState
  | .sensorsData p now storeOk => (postSensorsData st p now storeOk).1
  | .deviceCommands now => (getDeviceCommands st now).1
  | .statusUpdate p now storeOk => (postDeviceStatusUpdate st p now storeOk).1
  | .deviceAlerts m now storeOk => (postDeviceAlerts st m now storeOk).1
  | .sensors => st
  | .sensorsLatest => st
  | .sensorsRange _ _ _ => st
  | .sensorsHistory _ _ _ => st
  | .deviceStatus => st
  | .deviceConnection _ => st
  | .alerts _ => st
  | .deviceCommand c => (postDeviceCommand st c).1
  | .sensorsRead => postSensorsRead st
  | .samplingInterval i => (postSettingsSamplingInterval st i).1
  | .tempEnable => postSensorsTempEnable st
  | .tempDisable => postSensorsTempDisable st
  | .lightEnable => postSensorsLightEnable st
  | .lightDisable => postSensorsLightDisable st
  | .statusRequest => postDeviceStatusRequest st

/-- A sequence of command polls executed one after the other (each poll
handler is synchronous, so Node's event loop runs it atomically; any set of
concurrent polls is some serialization of this form). Returns the final
state and the per-poll responses in order. -/
def runPolls (st : ServerState) (times : List Int) : ServerState × List (Option String) :=
  match times with
  | [] => (st, [])
  | t :: ts =>
    let p := getDeviceCommands st t
    let r := runPolls p.1 ts
    (r.1, p.2 :: r.2)

/-- Modelled from the claim wording of C2: connectivity from the maximum of
the two liveness timestamps, false when both are absent. For comparison with
the source's `isCurrentlyConnected`. -/
def specIsConnectedMax (cs : ConnTrack) (now : Int) : Bool :=
  match cs.lastDataReceived, cs.lastCommandPoll with
  | none, none => false
  | some a, none => decide (now - a < CONNECTION_TIMEOUT)
  | none, some b => decide (now - b < CONNECTION_TIMEOUT)
  | some a, some b => decide (now - max a b < CONNECTION_TIMEOUT)

/-- Amended connectivity rule: the reading timestamp masks the poll timestamp
whenever it is present (JS `||`), rather than taking the maximum. -/
def specIsConnectedFirst (cs : ConnTrack) (now : Int) : Bool :=
  match cs.lastDataReceived, cs.lastCommandPoll with
  | none, none => false
  | some a, _ => decide (now - a < CONNECTION_TIMEOUT)
  | none, some b => decide (now - b < CONNECTION_TIMEOUT)

/-- Modelled from the claim wording of C3: a period is valid when it is a
named shorthand (or verbose alias) or matches `<positive integer><unit>`
with unit in m, h, d. For comparison with `resolveStartTime`. -/
def specValidPeriodPos (p : String) : Bool :=
  (["1m", "1minute", "5m", "5minutes", "15m", "15minutes", "30m", "30minutes",
    "1h", "1hour", "6h", "6hours", "1d", "1day", "1w", "1week"].contains p) ||
  (match matchCustom p with
   | some vu => decide (0 < vu.1)
   | none => false)

/-- Duration, in ms, expressed by a captured custom value and unit; `none`
for a unit outside m, h, d. For the amended C3 statement. -/
def customDurationMs (vu : Nat × Char) : Option Int :=
  if vu.2 == 'm' then some ((vu.1 : Int) * 60000)
  else if vu.2 == 'h' then some ((vu.1 : Int) * 60 * 60000)
  else if vu.2 == 'd' then some ((vu.1 : Int) * 24 * 60 * 60000)
  else none

/-- Total duration, in ms, expressed by a period string accepted by the
history handler; `none` when the handler rejects it. Mirrors the branch
structure of `resolvePeriodStr` for the amended C3 statement. -/
def periodDurationMs (p : String) : Option Int :=
  if p == "1m" || p == "1minute" then some 60000
  else if p == "5m" || p == "5minutes" then some (5 * 60000)
  else if p == "15m" || p == "15minutes" then some (15 * 60000)
  else if p == "30m" || p == "30minutes" then some (30 * 60000)
  else if p == "1h" || p == "1hour" then some (60 * 60000)
  else if p == "6h" || p == "6hours" then some (6 * 60 * 60000)
  else if p == "1d" || p == "1day" then some (24 * 60 * 60000)
  else if p == "1w" || p == "1week" then some (7 * 24 * 60 * 60000)
  else if p == "" then none
  else
    match matchCustom p with
    | some vu => customDurationMs vu
    | none => none

/-- Modelled from the claim wording of C6: cap at the caller-supplied limit,
falling back to the default when the limit is unspecified or non-positive.
For comparison with `queryRange`. -/
def specQueryRange (l : List SensorRecord) (s e : Int) (lim : Option Int) (dflt : Int) :
    List SensorRecord :=
  let capped := match lim with
    | some v => if 0 < v then v else dflt
    | none => dflt
  ((findInWindow l s e).insertionSort descByTimestamp).take capped.toNat

/-- A fresh server state: empty mailbox, empty caches, zeroed connection
tracking, empty store (the module initialisation of the source). -/
def st0 : ServerState :=
  { commandQueue := none
    latestSensorData := none
    latestDeviceStatus := none
    connectionStatus :=
      { lastDataReceived := none
        lastStatusUpdate := none
        lastCommandPoll := none
        totalDataReceived := 0
        totalCommandsSent := 0
        isConnected := false }
    store := { sensorData := [], deviceStatus := [], alerts := [] } }

/-- Connectivity state with a stale reading timestamp and a fresh poll
timestamp, for the C2 counterexample (at now = 100000: the reading is 90
seconds old, the poll 30 seconds old). -/
def csBoth : ConnTrack :=
  { lastDataReceived := some 10000
    lastStatusUpdate := none
    lastCommandPoll := some 70000
    totalDataReceived := 1
    totalCommandsSent := 1
    isConnected := true }

/-- Two in-window readings for the C6 counterexample. -/
def recA : SensorRecord := { temperature := 1, humidity := 2, ldr := 3, timestamp := 1000 }

/-- Second reading for the C6 counterexample, more recent than `recA`. -/
def recB : SensorRecord := { temperature := 4, humidity := 5, ldr := 6, timestamp := 2000 }

/-- Server state holding the two readings of the C6 counterexample. -/
def stC6 : ServerState :=
  { st0 with store := { st0.store with sensorData := [recA, recB] } }

/-- C1: for every non-empty command string, enqueue unconditionally replaces
the pending command and reports success; an immediate poll returns that
command, clears the slot and increments the delivered-commands counter; a
second immediate poll returns empty and leaves the counter unchanged. -/
theorem enqueue_then_poll_delivers_once (st : ServerState) (c : String)
    (now1 now2 : Int) (hc : c ≠ "") :
    (postDeviceCommand st (some c)).1.commandQueue = some c ∧
    (postDeviceCommand st (some c)).2 = CommandResp.queued ∧
    (getDeviceCommands (postDeviceCommand st (some c)).1 now1).2 = some c ∧
    (getDeviceCommands (postDeviceCommand st (some c)).1 now1).1.commandQueue = none ∧
    (getDeviceCommands (postDeviceCommand st (some c)).1 now1).1.connectionStatus.totalCommandsSent
      = st.connectionStatus.totalCommandsSent + 1 ∧
    (getDeviceCommands (getDeviceCommands (postDeviceCommand st (some c)).1 now1).1 now2).2
      = none ∧
    (getDeviceCommands (getDeviceCommands (postDeviceCommand st (some c)).1 now1).1
        now2).1.connectionStatus.totalCommandsSent
      = st.connectionStatus.totalCommandsSent + 1 := by
  simp [postDeviceCommand, getDeviceCommands, hc]

/-- C1 witness: the round trip at the fresh state with the command READ. -/
theorem enqueue_then_poll_delivers_once_witness :
    (postDeviceCommand st0 (some "READ")).1.commandQueue = some "READ" ∧
    (postDeviceCommand st0 (some "READ")).2 = CommandResp.queued ∧
    (getDeviceCommands (postDeviceCommand st0 (some "READ")).1 5).2 = some "READ" ∧
    (getDeviceCommands (postDeviceCommand st0 (some "READ")).1 5).1.commandQueue = none ∧
    (getDeviceCommands (postDeviceCommand st0 (some "READ")).1 5).1.connectionStatus.totalCommandsSent
      = st0.connectionStatus.totalCommandsSent + 1 ∧
    (getDeviceCommands (getDeviceCommands (postDeviceCommand st0 (some "READ")).1 5).1 9).2
      = none ∧
    (getDeviceCommands (getDeviceCommands (postDeviceCommand st0 (some "READ")).1 5).1
        9).1.connectionStatus.totalCommandsSent
      = st0.connectionStatus.totalCommandsSent + 1 :=
  enqueue_then_poll_delivers_once st0 "READ" 5 9 (by decide)

/-- C2 counterexample: at now = 100000, with the last reading 90 seconds old
and the last command poll 30 seconds old, the claimed max-based rule says
connected, but the handler reports disconnected: JS `||` short-circuits on
the stale reading timestamp and never looks at the fresher poll. -/
theorem connection_not_max_counterexample :
    specIsConnectedMax csBoth 100000 = true ∧
    (getDeviceConnection { st0 with connectionStatus := csBoth } 100000).isConnected = false := by
  constructor
  · decide
  · decide

/-- C2 corrected: the snapshot computes isConnected from the first present
timestamp of (lastReadingAt, lastCommandPollAt), not their maximum; with
neither present it is false. A reading 30 seconds old yields true; a reading
90 seconds old with no poll recorded yields false; no timestamps yields
false. -/
theorem connection_isConnected_amended (st : ServerState) (now : Int) :
    (getDeviceConnection st now).isConnected = specIsConnectedFirst st.connectionStatus now ∧
    (getDeviceConnection { st with connectionStatus := { st.connectionStatus with
        lastDataReceived := some (now - 30000) } } now).isConnected = true ∧
    (getDeviceConnection { st with connectionStatus := { st.connectionStatus with
        lastDataReceived := some (now - 90000),
        lastCommandPoll := none } } now).isConnected = false ∧
    (getDeviceConnection { st with connectionStatus := { st.connectionStatus with
        lastDataReceived := none, lastCommandPoll := none } } now).isConnected = false := by
  refine ⟨?_, ?_, ?_, ?_⟩
  · simp only [getDeviceConnection, isCurrentlyConnected, lastComm, specIsConnectedFirst]
    rcases hd : st.connectionStatus.lastDataReceived with _ | a <;>
      rcases hp : st.connectionStatus.lastCommandPoll with _ | b <;>
      simp [hd, hp]
  · simp [getDeviceConnection, isCurrentlyConnected, lastComm, CONNECTION_TIMEOUT]
  · simp [getDeviceConnection, isCurrentlyConnected, lastComm, CONNECTION_TIMEOUT]
  · simp [getDeviceConnection, isCurrentlyConnected, lastComm]

/-- C7: the snapshot's isConnected is invariant under any change of
lastStatusUpdate alone, and when no reading or poll has ever been recorded,
a status update (successful or not) still leaves isConnected false. -/
theorem connection_ignores_status_updates (st : ServerState) (x : Option Int) (now : Int) :
    (getDeviceConnection { st with connectionStatus :=
        { st.connectionStatus with lastStatusUpdate := x } } now).isConnected
      = (getDeviceConnection st now).isConnected ∧
    (st.connectionStatus.lastDataReceived = none → st.connectionStatus.lastCommandPoll = none →
      ∀ (p : StatusPayload) (now2 : Int) (storeOk : Bool),
        (getDeviceConnection (postDeviceStatusUpdate st p now2 storeOk).1 now).isConnected
          = false) := by
  constructor
  · simp [getDeviceConnection, isCurrentlyConnected, lastComm]
  · intro h1 h2 p now2 storeOk
    cases storeOk <;>
      simp [postDeviceStatusUpdate, getDeviceConnection, isCurrentlyConnected, lastComm, h1, h2]

/-- C7 witness: at the fresh state, status updates alone never connect. -/
theorem connection_ignores_status_updates_witness :
    (getDeviceConnection (postDeviceStatusUpdate st0
        { uptime := none, totalReadings := none, samplingInterval := none, ledState := none,
          temperatureOffset := none, humidityOffset := none, lightThreshold := none,
          ipAddress := none, rssi := none } 7 true).1 8).isConnected = false :=
  (connection_ignores_status_updates st0 none 8).2 rfl rfl
    { uptime := none, totalReadings := none, samplingInterval := none, ledState := none,
      temperatureOffset := none, humidityOffset := none, lightThreshold := none,
      ipAddress := none, rssi := none } 7 true

/-- Every poll against an empty mailbox answers empty and leaves the mailbox
empty, for any sequence of polls. -/
theorem runPolls_empty_queue (ts : List Int) (st : ServerState)
    (h : st.commandQueue = none) :
    (runPolls st ts).2 = List.replicate ts.length none ∧
    (runPolls st ts).1.commandQueue = none := by
  induction ts generalizing st with
  | nil => simpa [runPolls]
  | cons t ts ih =>
    have h1 : (getDeviceCommands st t).1.commandQueue = none := by
      simp [getDeviceCommands, h]
    have h2 : (getDeviceCommands st t).2 = none := by
      simp [getDeviceCommands, h]
    have h3 := ih (getDeviceCommands st t).1 h1
    simp [runPolls, h2, h3.1, h3.2, List.replicate_succ]

/-- C9: any serialization of one or more polls against a mailbox holding one
loaded command (each poll handler is synchronous, hence atomic under Node's
event loop) delivers the command to exactly the first poll; every other poll
observes empty and the mailbox ends drained — no duplication, no loss. -/
theorem concurrent_polls_deliver_exactly_once (st : ServerState) (c : String)
    (t : Int) (ts : List Int) (hq : st.commandQueue = some c) :
    (runPolls st (t :: ts)).2 = some c :: List.replicate ts.length none ∧
    (runPolls st (t :: ts)).1.commandQueue = none := by
  have h1 : (getDeviceCommands st t).1.commandQueue = none := by
    simp [getDeviceCommands, hq]
  have h2 : (getDeviceCommands st t).2 = some c := by
    simp [getDeviceCommands, hq]
  have h3 := runPolls_empty_queue ts (getDeviceCommands st t).1 h1
  simp [runPolls, h2, h3.1, h3.2]

/-- C9 witness: three polls against a loaded STATUS command. -/
theorem concurrent_polls_deliver_exactly_once_witness :
    (runPolls { st0 with commandQueue := some "STATUS" } [1, 2, 3]).2
      = some "STATUS" :: List.replicate 2 none ∧
    (runPolls { st0 with commandQueue := some "STATUS" } [1, 2, 3]).1.commandQueue = none :=
  concurrent_polls_deliver_exactly_once { st0 with commandQueue := some "STATUS" }
    "STATUS" 1 [2, 3] rfl

/-- C4: reading ingestion answers the missing-field rejection exactly when
temperature, humidity, or the light level is absent from the payload, and in
that case the whole server state — reading log, latest-reading cache,
connectivity timestamps and counters — is untouched. -/
theorem ingestReading_rejects_missing (st : ServerState) (p : SensorPayload)
    (now : Int) (storeOk : Bool) :
    ((postSensorsData st p now storeOk).2 = IngestResult.validationError ↔
      (p.temperature = none ∨ p.humidity = none ∨ p.ldr = none)) ∧
    ((p.temperature = none ∨ p.humidity = none ∨ p.ldr = none) →
      (postSensorsData st p now storeOk).1 = st) := by
  rcases p with ⟨t, h, l⟩
  cases t <;> cases h <;> cases l <;> cases storeOk <;> simp [postSensorsData]

/-- C4 witness: a payload missing the light level is rejected with nothing
persisted and nothing changed, at the fresh state. -/
theorem ingestReading_rejects_missing_witness :
    (postSensorsData st0 { temperature := some 22, humidity := some 55, ldr := none }
        3 true).2 = IngestResult.validationError ∧
    (postSensorsData st0 { temperature := some 22, humidity := some 55, ldr := none }
        3 true).1 = st0 :=
  ⟨(ingestReading_rejects_missing st0
        { temperature := some 22, humidity := some 55, ldr := none } 3 true).1.mpr
      (Or.inr (Or.inr rfl)),
   (ingestReading_rejects_missing st0
        { temperature := some 22, humidity := some 55, ldr := none } 3 true).2
      (Or.inr (Or.inr rfl))⟩

/-- C10: for a payload passing validation, the latest-reading cache, the
lastDataReceived stamp and the total-readings counter are updated before the
store insert is attempted, so when the insert fails the handler answers a
store error while those in-process updates stay in place and no record is
appended. -/
theorem ingestReading_not_atomic (st : ServerState) (t h l : Int) (now : Int) :
    (postSensorsData st { temperature := some t, humidity := some h, ldr := some l }
        now false).2 = IngestResult.storeError ∧
    (postSensorsData st { temperature := some t, humidity := some h, ldr := some l }
        now false).1.latestSensorData = some { temperature := t, humidity := h, ldr := l } ∧
    (postSensorsData st { temperature := some t, humidity := some h, ldr := some l }
        now false).1.connectionStatus.lastDataReceived = some now ∧
    (postSensorsData st { temperature := some t, humidity := some h, ldr := some l }
        now false).1.connectionStatus.totalDataReceived
      = st.connectionStatus.totalDataReceived + 1 ∧
    (postSensorsData st { temperature := some t, humidity := some h, ldr := some l }
        now false).1.store = st.store := by
  simp [postSensorsData]

/-- Reading ingestion only ever appends to the reading log and leaves the
status and alert logs alone. -/
theorem postSensorsData_store (st : ServerState) (p : SensorPayload) (now : Int)
    (storeOk : Bool) :
    (∃ s1, (postSensorsData st p now storeOk).1.store.sensorData
        = st.store.sensorData ++ s1) ∧
    (postSensorsData st p now storeOk).1.store.deviceStatus = st.store.deviceStatus ∧
    (postSensorsData st p now storeOk).1.store.alerts = st.store.alerts := by
  rcases p with ⟨t, h, l⟩
  cases t <;> cases h <;> cases l <;> cases storeOk <;>
    first
      | exact ⟨⟨_, rfl⟩, rfl, rfl⟩
      | exact ⟨⟨[], (List.append_nil _).symm⟩, rfl, rfl⟩

/-- Polling for a command never touches the store. -/
theorem getDeviceCommands_store (st : ServerState) (now : Int) :
    (getDeviceCommands st now).1.store = st.store := by
  rcases hq : st.commandQueue with _ | c <;> simp [getDeviceCommands, hq]

/-- Status ingestion only ever appends to the status log. -/
theorem postDeviceStatusUpdate_store (st : ServerState) (p : StatusPayload) (now : Int)
    (storeOk : Bool) :
    (postDeviceStatusUpdate st p now storeOk).1.store.sensorData = st.store.sensorData ∧
    (∃ s2, (postDeviceStatusUpdate st p now storeOk).1.store.deviceStatus
        = st.store.deviceStatus ++ s2) ∧
    (postDeviceStatusUpdate st p now storeOk).1.store.alerts = st.store.alerts := by
  cases storeOk
  · exact ⟨rfl, ⟨[], (List.append_nil _).symm⟩, rfl⟩
  · exact ⟨rfl, ⟨_, rfl⟩, rfl⟩

/-- Alert ingestion only ever appends to the alert log. -/
theorem postDeviceAlerts_store (st : ServerState) (m : Option String) (now : Int)
    (storeOk : Bool) :
    (postDeviceAlerts st m now storeOk).1.store.sensorData = st.store.sensorData ∧
    (postDeviceAlerts st m now storeOk).1.store.deviceStatus = st.store.deviceStatus ∧
    (∃ s3, (postDeviceAlerts st m now storeOk).1.store.alerts = st.store.alerts ++ s3) := by
  rcases m with _ | m
  · exact ⟨rfl, rfl, ⟨[], (List.append_nil _).symm⟩⟩
  · by_cases hm : m = ""
    · subst hm
      cases storeOk <;> exact ⟨rfl, rfl, ⟨[], (List.append_nil _).symm⟩⟩
    · cases storeOk with
      | false =>
        exact ⟨by simp [postDeviceAlerts, hm], by simp [postDeviceAlerts, hm],
          ⟨[], by simp [postDeviceAlerts, hm]⟩⟩
      | true =>
        exact ⟨by simp [postDeviceAlerts, hm], by simp [postDeviceAlerts, hm],
          ⟨[{ message := m, timestamp := now }], by simp [postDeviceAlerts, hm]⟩⟩

/-- Enqueueing a command never touches the store. -/
theorem postDeviceCommand_store (st : ServerState) (c : Option String) :
    (postDeviceCommand st c).1.store = st.store := by
  rcases c with _ | c
  · rfl
  · by_cases hc : c = "" <;> simp [postDeviceCommand, hc]

/-- The sampling-interval endpoint never touches the store. -/
theorem postSettingsSamplingInterval_store (st : ServerState) (i : Option Int) :
    (postSettingsSamplingInterval st i).1.store = st.store := by
  rcases i with _ | v
  · rfl
  · simp only [postSettingsSamplingInterval]
    split_ifs <;> rfl

/-- C5: every handler invocation of the core leaves each previously stored
log entry present and unchanged: the new contents of the reading, status and
alert collections is the old contents with zero or more records appended —
no operation updates or deletes a log entry. -/
theorem logs_append_only (st : ServerState) (op : Op) :
    (∃ s1, (applyOp st op).store.sensorData = st.store.sensorData ++ s1) ∧
    (∃ s2, (applyOp st op).store.deviceStatus = st.store.deviceStatus ++ s2) ∧
    (∃ s3, (applyOp st op).store.alerts = st.store.alerts ++ s3) := by
  cases op with
  | sensorsData p now storeOk =>
    obtain ⟨⟨s1, h1⟩, h2, h3⟩ := postSensorsData_store st p now storeOk
    exact ⟨⟨s1, h1⟩, ⟨[], by simp [applyOp, h2]⟩, ⟨[], by simp [applyOp, h3]⟩⟩
  | deviceCommands now =>
    have h := getDeviceCommands_store st now
    exact ⟨⟨[], by simp [applyOp, h]⟩, ⟨[], by simp [applyOp, h]⟩, ⟨[], by simp [applyOp, h]⟩⟩
  | statusUpdate p now storeOk =>
    obtain ⟨h1, ⟨s2, h2⟩, h3⟩ := postDeviceStatusUpdate_store st p now storeOk
    exact ⟨⟨[], by simp [applyOp, h1]⟩, ⟨s2, h2⟩, ⟨[], by simp [applyOp, h3]⟩⟩
  | deviceAlerts m now storeOk =>
    obtain ⟨h1, h2, ⟨s3, h3⟩⟩ := postDeviceAlerts_store st m now storeOk
    exact ⟨⟨[], by simp [applyOp, h1]⟩, ⟨[], by simp [applyOp, h2]⟩, ⟨s3, h3⟩⟩
  | deviceCommand c =>
    have h := postDeviceCommand_store st c
    exact ⟨⟨[], by simp [applyOp, h]⟩, ⟨[], by simp [applyOp, h]⟩, ⟨[], by simp [applyOp, h]⟩⟩
  | samplingInterval i =>
    have h := postSettingsSamplingInterval_store st i
    exact ⟨⟨[], by simp [applyOp, h]⟩, ⟨[], by simp [applyOp, h]⟩, ⟨[], by simp [applyOp, h]⟩⟩
  | sensors => exact ⟨⟨[], by simp [applyOp]⟩, ⟨[], by simp [applyOp]⟩, ⟨[], by simp [applyOp]⟩⟩
  | sensorsLatest =>
    exact ⟨⟨[], by simp [applyOp]⟩, ⟨[], by simp [applyOp]⟩, ⟨[], by simp [applyOp]⟩⟩
  | sensorsRange s e limit =>
    exact ⟨⟨[], by simp [applyOp]⟩, ⟨[], by simp [applyOp]⟩, ⟨[], by simp [applyOp]⟩⟩
  | sensorsHistory period limit now =>
    exact ⟨⟨[], by simp [applyOp]⟩, ⟨[], by simp [applyOp]⟩, ⟨[], by simp [applyOp]⟩⟩
  | deviceStatus =>
    exact ⟨⟨[], by simp [applyOp]⟩, ⟨[], by simp [applyOp]⟩, ⟨[], by simp [applyOp]⟩⟩
  | deviceConnection now =>
    exact ⟨⟨[], by simp [applyOp]⟩, ⟨[], by simp [applyOp]⟩, ⟨[], by simp [applyOp]⟩⟩
  | alerts limit =>
    exact ⟨⟨[], by simp [applyOp]⟩, ⟨[], by simp [applyOp]⟩, ⟨[], by simp [applyOp]⟩⟩
  | sensorsRead =>
    exact ⟨⟨[], by simp [applyOp, postSensorsRead]⟩, ⟨[], by simp [applyOp, postSensorsRead]⟩,
      ⟨[], by simp [applyOp, postSensorsRead]⟩⟩
  | tempEnable =>
    exact ⟨⟨[], by simp [applyOp, postSensorsTempEnable]⟩,
      ⟨[], by simp [applyOp, postSensorsTempEnable]⟩,
      ⟨[], by simp [applyOp, postSensorsTempEnable]⟩⟩
  | tempDisable =>
    exact ⟨⟨[], by simp [applyOp, postSensorsTempDisable]⟩,
      ⟨[], by simp [applyOp, postSensorsTempDisable]⟩,
      ⟨[], by simp [applyOp, postSensorsTempDisable]⟩⟩
  | lightEnable =>
    exact ⟨⟨[], by simp [applyOp, postSensorsLightEnable]⟩,
      ⟨[], by simp [applyOp, postSensorsLightEnable]⟩,
      ⟨[], by simp [applyOp, postSensorsLightEnable]⟩⟩
  | lightDisable =>
    exact ⟨⟨[], by simp [applyOp, postSensorsLightDisable]⟩,
      ⟨[], by simp [applyOp, postSensorsLightDisable]⟩,
      ⟨[], by simp [applyOp, postSensorsLightDisable]⟩⟩
  | statusRequest =>
    exact ⟨⟨[], by simp [applyOp, postDeviceStatusRequest]⟩,
      ⟨[], by simp [applyOp, postDeviceStatusRequest]⟩,
      ⟨[], by simp [applyOp, postDeviceStatusRequest]⟩⟩

/-- The custom branch succeeds exactly on the units with a duration, and
then yields now minus that duration. -/
theorem customStartTime_toOption (vu : Nat × Char) (now : Int) :
    (customStartTime vu now).toOption = (customDurationMs vu).map (fun d => now - d) := by
  unfold customStartTime customDurationMs
  by_cases hu1 : (vu.2 == 'm') = true
  · rw [if_pos hu1, if_pos hu1]; rfl
  rw [if_neg hu1, if_neg hu1]
  by_cases hu2 : (vu.2 == 'h') = true
  · rw [if_pos hu2, if_pos hu2]; rfl
  rw [if_neg hu2, if_neg hu2]
  by_cases hu3 : (vu.2 == 'd') = true
  · rw [if_pos hu3, if_pos hu3]; rfl
  rw [if_neg hu3, if_neg hu3]
  rfl

/-- The period resolution succeeds exactly on the periods with a defined
duration, and then yields now minus that duration. -/
theorem resolveStartTime_toOption (p : String) (now : Int) :
    (resolveStartTime (some p) now).toOption
      = (periodDurationMs p).map (fun d => now - d) := by
  show (resolvePeriodStr p now).toOption = (periodDurationMs p).map (fun d => now - d)
  unfold resolvePeriodStr periodDurationMs
  by_cases h1 : (p == "1m" || p == "1minute") = true
  · rw [if_pos h1, if_pos h1]; rfl
  rw [if_neg h1, if_neg h1]
  by_cases h2 : (p == "5m" || p == "5minutes") = true
  · rw [if_pos h2, if_pos h2]; rfl
  rw [if_neg h2, if_neg h2]
  by_cases h3 : (p == "15m" || p == "15minutes") = true
  · rw [if_pos h3, if_pos h3]; rfl
  rw [if_neg h3, if_neg h3]
  by_cases h4 : (p == "30m" || p == "30minutes") = true
  · rw [if_pos h4, if_pos h4]; rfl
  rw [if_neg h4, if_neg h4]
  by_cases h5 : (p == "1h" || p == "1hour") = true
  · rw [if_pos h5, if_pos h5]; rfl
  rw [if_neg h5, if_neg h5]
  by_cases h6 : (p == "6h" || p == "6hours") = true
  · rw [if_pos h6, if_pos h6]; rfl
  rw [if_neg h6, if_neg h6]
  by_cases h7 : (p == "1d" || p == "1day") = true
  · rw [if_pos h7, if_pos h7]; rfl
  rw [if_neg h7, if_neg h7]
  by_cases h8 : (p == "1w" || p == "1week") = true
  · rw [if_pos h8, if_pos h8]; rfl
  rw [if_neg h8, if_neg h8]
  by_cases h9 : (p == "") = true
  · rw [if_pos h9, if_pos h9]; rfl
  rw [if_neg h9, if_neg h9]
  generalize matchCustom p = mc
  cases mc with
  | none => rfl
  | some vu => exact customStartTime_toOption vu now

/-- C3 counterexample: the period "0m" is neither a named shorthand nor of
the form positive-integer-and-unit, yet the handler accepts it (the regex is
one-or-more digits, zero included) instead of failing with the invalid
period rejection; the claimed iff characterisation is therefore false. -/
theorem resolveWindow_accepts_zero :
    specValidPeriodPos "0m" = false ∧
    (resolveStartTime (some "0m") 17).toOption = some 17 := by
  constructor
  · decide
  · decide

/-- C3 corrected: the resolution fails exactly when the period is neither a
named shorthand (with verbose aliases) nor a digit string (zero allowed)
followed by a unit in m, h, d; on success the window end is now and the
start is now minus the expressed duration; "1h" yields now − 3600 s, "10m"
yields now − 600 s, and "bogus" fails with the invalid-period rejection. -/
theorem resolveWindow_amended (p : String) (now : Int) :
    (resolveStartTime (some p) now).toOption
      = (periodDurationMs p).map (fun d => now - d) ∧
    (resolveStartTime (some "1h") now).toOption = some (now - 3600000) ∧
    (resolveStartTime (some "10m") now).toOption = some (now - 600000) ∧
    resolveStartTime (some "bogus") now = Except.error PeriodError.invalidPeriod := by
  refine ⟨resolveStartTime_toOption p now, ?_, ?_, rfl⟩
  · rw [resolveStartTime_toOption]
    have h : periodDurationMs "1h" = some 3600000 := by decide
    rw [h]
    rfl
  · rw [resolveStartTime_toOption]
    have h : periodDurationMs "10m" = some 600000 := by decide
    rw [h]
    rfl

/-- C8: an omitted period is rejected with the "period required" error, the
degenerate period "0m" still parses and yields a window starting at now, and
on a log whose readings all predate now the history query then answers an
empty data set with count 0 rather than an error. -/
theorem history_zero_period (st : ServerState) (now : Int)
    (h : ∀ r ∈ st.store.sensorData, r.timestamp < now) :
    resolveStartTime none now = Except.error PeriodError.required ∧
    resolveStartTime (some "0m") now = Except.ok now ∧
    ∃ resp, getSensorsHistory st (some "0m") none now = Except.ok resp ∧
      resp.data = [] ∧ resp.count = 0 := by
  have h0 : resolveStartTime (some "0m") now = Except.ok (now - 0) := rfl
  rw [sub_zero] at h0
  have hwin : findInWindow st.store.sensorData now now = [] := by
    apply List.filter_eq_nil_iff.mpr
    intro r hr
    have hlt := h r hr
    simp only [Bool.and_eq_true, decide_eq_true_eq, not_and]
    intro h1
    omega
  have hdata : queryRange st.store.sensorData now now (effLimit none 10000) = [] := by
    simp [queryRange, hwin, applyLimit, effLimit, List.insertionSort]
  refine ⟨rfl, h0, ⟨{ startTime := now, endTime := now, count := 0, data := [] }, ?_, rfl, rfl⟩⟩
  simp [getSensorsHistory, h0, hdata]

/-- C8 witness: the edge cases at a store of two old readings and now = 5000. -/
theorem history_zero_period_witness :
    resolveStartTime none 5000 = Except.error PeriodError.required ∧
    resolveStartTime (some "0m") 5000 = Except.ok 5000 ∧
    ∃ resp, getSensorsHistory stC6 (some "0m") none 5000 = Except.ok resp ∧
      resp.data = [] ∧ resp.count = 0 :=
  history_zero_period stC6 5000 (by decide)

/-- C6 counterexample: with two readings in the window and the supplied
limit "-1", the claimed rule (default limit 10000 for a non-positive limit)
returns both readings, but the handler passes the parsed -1 through to the
store, whose cursor caps a negative limit at its absolute value: only the
most recent reading comes back. The handler substitutes the default only
when the limit is absent, never for a non-positive value. -/
theorem queryRange_limit_counterexample :
    (getSensorsHistory stC6 (some "1h") (some "-1") 3600000).toOption.map HistoryResp.data
      = some [recB] ∧
    specQueryRange stC6.store.sensorData 0 3600000 (some (-1)) 10000 = [recB, recA] := by
  constructor
  · decide
  · decide

/-- C6 corrected: the range query is sorted descending by timestamp and
capped at the caller-supplied limit when that limit is positive; the default
limit applies only when the limit is unspecified (the history handler then
answers at most 10000 readings, with count equal to the data length); a
supplied zero limit is passed through as no cap and a negative limit caps at
its absolute value; a window with no matching readings yields an empty
sequence, not an error. -/
theorem queryRange_amended (l : List SensorRecord) (s e v : Int) (lim : Option Int)
    (st : ServerState) (period : Option String) (now : Int) :
    List.Sorted descByTimestamp (queryRange l s e lim) ∧
    (0 < v → (queryRange l s e (some v)).length ≤ v.toNat) ∧
    (v < 0 → (queryRange l s e (some v)).length ≤ (-v).toNat) ∧
    queryRange l s e (some 0) = (findInWindow l s e).insertionSort descByTimestamp ∧
    (∀ resp, getSensorsHistory st period none now = Except.ok resp →
      resp.count ≤ 10000 ∧ resp.count = resp.data.length) ∧
    (findInWindow l s e = [] → queryRange l s e lim = []) := by
  have hs := List.sorted_insertionSort descByTimestamp (findInWindow l s e)
  refine ⟨?_, ?_, ?_, ?_, ?_, ?_⟩
  · rcases lim with _ | w
    · exact hs
    · simp only [queryRange, applyLimit]
      split_ifs
      · exact List.Pairwise.sublist (List.take_sublist _ _) hs
      · exact List.Pairwise.sublist (List.take_sublist _ _) hs
      · exact hs
  · intro hv
    simp only [queryRange, applyLimit, if_pos hv]
    exact List.length_take_le _ _
  · intro hv
    simp only [queryRange, applyLimit]
    rw [if_neg (by omega), if_pos hv]
    exact List.length_take_le _ _
  · simp [queryRange, applyLimit]
  · intro resp hresp
    unfold getSensorsHistory at hresp
    cases hr : resolveStartTime period now with
    | error e2 => rw [hr] at hresp; exact absurd hresp (by simp)
    | ok t =>
      rw [hr] at hresp
      cases hresp
      refine ⟨?_, rfl⟩
      show (queryRange st.store.sensorData t now (effLimit none 10000)).length ≤ 10000
      simp only [queryRange, applyLimit, effLimit]
      rw [if_pos (by norm_num : (0 : Int) < 10000)]
      have hle := List.length_take_le (10000 : Int).toNat
        ((findInWindow st.store.sensorData t now).insertionSort descByTimestamp)
      exact hle
  · intro hw
    rcases lim with _ | w <;>
      simp [queryRange, hw, applyLimit, List.insertionSort]

/-- C6 witness: concrete caps for positive and negative limits and the empty
window at the two-reading store. -/
theorem queryRange_amended_witness :
    (queryRange [recA, recB] 0 3600000 (some 1)).length ≤ (1 : Int).toNat ∧
    (queryRange [recA, recB] 0 3600000 (some (-1))).length ≤ (-(-1 : Int)).toNat ∧
    queryRange [recA, recB] 5000 6000 (some 7) = [] :=
  ⟨(queryRange_amended [recA, recB] 0 3600000 1 (some 1) stC6 (some "1h") 3600000).2.1
      (by decide),
   (queryRange_amended [recA, recB] 0 3600000 (-1) (some (-1)) stC6 (some "1h") 3600000).2.2.1
      (by decide),
   (queryRange_amended [recA, recB] 5000 6000 7 (some 7) stC6 (some "1h") 3600000).2.2.2.2.2
      (by decide)⟩
